import Mathlib

/-!
Verification development for the cryptotax-django wallet_analysis app.

Shallow embedding of the payment-confirmation and analysis-orchestration
pipeline:
* `tasks.py` — job execution loop of `execute_wallet_analysis` (error
  classification, timeout short-circuit, final order-status aggregation)
  and the `check_pending_payments` sweeper;
* `models.py` — status enums and the `is_paid` / `is_retryable` properties;
* `views.py` — the `verify_payment_api` endpoint and the manual
  `verify_signature_view` page, modelled as state transformers that also
  record observable effects (number of on-chain verification calls,
  number of enqueued analysis tasks);
* `solana_utils.py` — `verify_transaction_on_chain` over the parsed
  transaction shape supplied by the RPC layer, including the associated
  token account derivation (`Pubkey.find_program_address`, implemented
  concretely: base58, SHA-256, and the ed25519 decompression check).

Machine integers are modelled as `Nat` with explicit `% 2 ^ 32` (SHA-256
words) and `% ED_P` (field arithmetic).  Fallible operations return
`Option`; the RPC fetch is `Except`, whose `error` constructor models a
raised exception.
-/

namespace CryptoTax

/-! ### Python string semantics

`pyContains hay needle` models the Python expression `needle in hay`
(contiguous substring containment).  Python's `str.lower()` on the ASCII
error messages involved coincides with `String.toLower`. -/

def pyContains (hay needle : String) : Bool :=
  decide (needle.data <:+: hay.data)

/-- Python `str.lower()`, character-wise; on the ASCII alphabet this is
exactly `Char.toLower`. -/
def pyLower (s : String) : String :=
  ⟨s.data.map Char.toLower⟩

/-- Python `str.strip()`: drop whitespace from both ends. -/
def pyStrip (s : String) : String :=
  ⟨((s.data.dropWhile Char.isWhitespace).reverse.dropWhile Char.isWhitespace).reverse⟩

/-! ### models.py — status constants and properties -/

namespace DuneQueryJob

def STATUS_QUEUED : String := "queued"

def STATUS_RUNNING : String := "running"

def STATUS_COMPLETED : String := "completed"

def STATUS_FAILED : String := "failed"

def ERROR_QUERY : String := "query_error"

def ERROR_NETWORK : String := "network_error"

def ERROR_RATE_LIMIT : String := "rate_limit"

def ERROR_SERVICE_OUTAGE : String := "service_outage"

def ERROR_AUTH : String := "auth_error"

/-- Python truthiness of the nullable `error_type` CharField: `None` and the
empty string are falsy. -/
def pyTruthyStr (s : Option String) : Bool :=
  match s with
  | none => false
  | some s => !(s == "")

/-- Embedding of `DuneQueryJob.is_retryable` (models.py lines 328-333):
`return self.error_type not in non_retryable if self.error_type else False`
with `non_retryable = [ERROR_QUERY, ERROR_AUTH]`. -/
def is_retryable (error_type : Option String) : Bool :=
  let non_retryable : List String := [ERROR_QUERY, ERROR_AUTH]
  if pyTruthyStr error_type then !(non_retryable.contains (error_type.getD "")) else false

end DuneQueryJob

namespace WalletAnalysisOrder

def STATUS_COMPLETED : String := "completed"

def STATUS_PARTIAL_COMPLETE : String := "partial_complete"

def STATUS_FAILED : String := "failed"

end WalletAnalysisOrder

/-! ### tasks.py — execute_wallet_analysis -/

/-- Embedding of the inline error-classification block of
`execute_wallet_analysis` (tasks.py lines 283-294).  Each branch mirrors one
`if`/`elif`; note that the `"401"` test is on the raw message (digits are
unaffected by lower-casing, see `pyContains_pyLower_401`). -/
def classify_error (error_message : String) : String :=
  if pyContains (pyLower error_message) "rate limit" then DuneQueryJob.ERROR_RATE_LIMIT
  else if pyContains (pyLower error_message) "auth" || pyContains error_message "401" then
    DuneQueryJob.ERROR_AUTH
  else if pyContains (pyLower error_message) "timeout" then DuneQueryJob.ERROR_NETWORK
  else if pyContains (pyLower error_message) "query" || pyContains (pyLower error_message) "execution" then
    DuneQueryJob.ERROR_QUERY
  else DuneQueryJob.ERROR_NETWORK

/-- Outcome of executing one Dune query job inside the per-job `try` of
`execute_wallet_analysis` (tasks.py lines 160-304): either the job ran to
completion, or some step raised an exception with message `msg`, which is a
`TimeoutError` exactly when `is_timeout` is true (tasks.py line 244). -/
inductive JobResult where
  | success : JobResult
  | failure (msg : String) (is_timeout : Bool) : JobResult
deriving DecidableEq, Repr

def JobResult.isTimeoutFailure : JobResult → Bool
  | .failure _ true => true
  | _ => false

/-- Final (status, error_type) pair recorded on one `DuneQueryJob` row. -/
abbrev JobRow := String × Option String

/-- Embedding of the sequential job loop of `execute_wallet_analysis`
(tasks.py lines 160-304).  A successful job ends `completed`; a failed job is
classified and ends `failed`; after a `TimeoutError` the loop `break`s
(tasks.py lines 300-304), leaving every later job in its initial `queued`
state. -/
def process_query_jobs : List JobResult → List JobRow
  | [] => []
  | .success :: rest =>
      (DuneQueryJob.STATUS_COMPLETED, none) :: process_query_jobs rest
  | .failure msg is_timeout :: rest =>
      (DuneQueryJob.STATUS_FAILED, some (classify_error msg)) ::
        (if is_timeout then rest.map (fun _ => (DuneQueryJob.STATUS_QUEUED, none))
         else process_query_jobs rest)

/-- Embedding of the final order-status recomputation of
`execute_wallet_analysis` (tasks.py lines 306-323):
`completed_jobs = sum(1 for job in query_jobs if job.status == STATUS_COMPLETED)`
followed by the three-way `if`. -/
def order_status_from_jobs (statuses : List String) : String :=
  let completed_jobs := statuses.countP (fun s => s == DuneQueryJob.STATUS_COMPLETED)
  if completed_jobs = statuses.length then WalletAnalysisOrder.STATUS_COMPLETED
  else if completed_jobs > 0 then WalletAnalysisOrder.STATUS_PARTIAL_COMPLETE
  else WalletAnalysisOrder.STATUS_FAILED

/-- The order status produced by a full run of `execute_wallet_analysis` over
the given per-job outcomes (job loop followed by the aggregation step). -/
def execute_wallet_analysis_order_status (results : List JobResult) : String :=
  order_status_from_jobs ((process_query_jobs results).map Prod.fst)

/-! ### models.py / views.py — payment confirmation state -/

inductive PaymentStatus where
  | pending
  | confirmed
  | finalized
  | failed
deriving DecidableEq, Repr

inductive OrderStatus where
  | pending_payment
  | payment_received
  | processing
  | completed
  | partial_complete
  | failed
deriving DecidableEq, Repr

instance : BEq PaymentStatus := instBEqOfDecidableEq

instance : BEq OrderStatus := instBEqOfDecidableEq

/-- The `SolanaPayment` columns touched by the confirmation flow. -/
structure SolanaPaymentRow where
  status : PaymentStatus
  transaction_signature : Option String
  confirmed_at : Option Nat
deriving DecidableEq, Repr

/-- Embedding of `SolanaPayment.is_paid` (models.py lines 196-199):
`self.status in [self.STATUS_CONFIRMED, self.STATUS_FINALIZED]`. -/
def SolanaPaymentRow.is_paid (p : SolanaPaymentRow) : Bool :=
  [PaymentStatus.confirmed, PaymentStatus.finalized].contains p.status

/-- Joint database state of one payment and its order, as seen by the
confirmation entry points. -/
structure PayState where
  payment : SolanaPaymentRow
  order_status : OrderStatus
deriving DecidableEq, Repr

/-- Observable side effects of one invocation of a confirmation entry point:
how many times `verify_transaction_on_chain` was called and how many
`execute_wallet_analysis` tasks were enqueued via `async_task`. -/
structure ConfirmEffects where
  verify_calls : Nat
  enqueued_analysis : Nat
deriving DecidableEq, Repr

/-- JSON response of `verify_payment_api`, reduced to the success flag and the
HTTP status code. -/
structure ApiResponse where
  success : Bool
  http_status : Nat
deriving DecidableEq, Repr

/-- Embedding of `verify_payment_api` (views.py lines 149-254).  The on-chain
verifier is summarised by its boolean `verdict` (constant across the retry
loop because `verify_transaction_on_chain` is deterministic in its
arguments): the loop calls it once when it returns true and
`max_retries = 10` times when it keeps returning false.  `order_id` and
`signature` are `""` when missing from the request body. -/
def verify_payment_api (st : PayState) (order_id signature : String) (verdict : Bool)
    (now : Nat) : ApiResponse × PayState × ConfirmEffects :=
  if order_id = "" ∨ signature = "" then (⟨false, 400⟩, st, ⟨0, 0⟩)
  else if st.payment.is_paid then (⟨true, 200⟩, st, ⟨0, 0⟩)
  else
    let calls := if verdict then 1 else 10
    if verdict then
      (⟨true, 200⟩,
       ⟨{ st.payment with
            status := PaymentStatus.confirmed
            transaction_signature := some signature
            confirmed_at := some now },
         OrderStatus.payment_received⟩,
       ⟨calls, 1⟩)
    else (⟨false, 400⟩, st, ⟨calls, 0⟩)

/-- Embedding of the POST branch of `verify_signature_view` (views.py lines
351-397), the manual verification page.  The returned `Bool` is true when the
request redirects to the order-detail page (success).  Note there is no
`is_paid` short-circuit in the source: verification always runs once. -/
def verify_signature_view_post (st : PayState) (signature : String) (verdict : Bool)
    (now : Nat) : Bool × PayState × ConfirmEffects :=
  let sig := pyStrip signature
  if sig = "" then (false, st, ⟨0, 0⟩)
  else if verdict then
    (true,
     ⟨{ st.payment with
          status := PaymentStatus.confirmed
          transaction_signature := some sig
          confirmed_at := some now },
       OrderStatus.payment_received⟩,
     ⟨1, 1⟩)
  else (false, st, ⟨1, 0⟩)

/-- One candidate payment as seen by the sweeper `check_pending_payments`
(tasks.py lines 25-86): its database state, whether it is older than the
two-minute grace window, the signature found by
`search_transactions_by_reference` (if any), and the verifier's verdict for
that signature. -/
structure SweepEntry where
  st : PayState
  older_than_grace : Bool
  found_signature : Option String
  verdict : Bool

/-- Action of one sweeper cycle on a single payment.  The queryset filter
`status=STATUS_PENDING, created_at__lt=two_minutes_ago` admits only pending
payments past the grace window; for those, a found signature is verified and,
on success, the payment is confirmed and the analysis task enqueued. -/
def sweep_one (e : SweepEntry) (now : Nat) : PayState × ConfirmEffects :=
  if e.st.payment.status = PaymentStatus.pending ∧ e.older_than_grace then
    match e.found_signature with
    | none => (e.st, ⟨0, 0⟩)
    | some sig =>
      if e.verdict then
        (⟨{ e.st.payment with
              status := PaymentStatus.confirmed
              transaction_signature := some sig
              confirmed_at := some now },
           OrderStatus.payment_received⟩,
         ⟨1, 1⟩)
      else (e.st, ⟨1, 0⟩)
  else (e.st, ⟨0, 0⟩)

/-! ### Base58, SHA-256 and the ed25519 decompression check

Concrete model of the cryptographic library calls made by
`verify_transaction_on_chain` and `verify_transaction_on_chain_old`:
`Pubkey.from_string` / `str(Pubkey)` (base58 of 32 bytes) and
`Pubkey.find_program_address` (SHA-256 of the seeds plus the program id and
the marker `ProgramDerivedAddress`, retried with decreasing bump seed until
the digest is not a valid ed25519 compressed point).  Bytes are `Nat`s below
256, byte strings are `List Nat`. -/

def B58_ALPHABET : String :=
  "123456789ABCDEFGHJKLMNPQRSTUVWXYZabcdefghijkmnopqrstuvwxyz"

def b58digit (c : Char) : Option Nat :=
  let i := B58_ALPHABET.data.indexOf c
  if i < 58 then some i else none

def b58decodeNatAux : List Char → Nat → Option Nat
  | [], acc => some acc
  | c :: cs, acc =>
    match b58digit c with
    | some d => b58decodeNatAux cs (acc * 58 + d)
    | none => none

def countLeadingOnes : List Char → Nat
  | [] => 0
  | c :: cs => if c = '1' then countLeadingOnes cs + 1 else 0

/-- Minimal big-endian byte representation of `v` (empty for 0); `fuel`
bounds the recursion and 64 suffices for all values arising here. -/
def natToBytesBE (fuel : Nat) (v : Nat) : List Nat :=
  match fuel with
  | 0 => []
  | f + 1 => if v = 0 then [] else natToBytesBE f (v / 256) ++ [v % 256]

/-- Base58 decoding: leading `'1'` characters are leading zero bytes. -/
def b58decode (s : String) : Option (List Nat) :=
  match b58decodeNatAux s.data 0 with
  | none => none
  | some v => some (List.replicate (countLeadingOnes s.data) 0 ++ natToBytesBE 64 v)

def natToB58Digits (fuel : Nat) (v : Nat) : List Char :=
  match fuel with
  | 0 => []
  | f + 1 =>
    if v = 0 then [] else natToB58Digits f (v / 58) ++ [B58_ALPHABET.data.getD (v % 58) '1']

def countLeadingZeroBytes : List Nat → Nat
  | [] => 0
  | b :: bs => if b = 0 then countLeadingZeroBytes bs + 1 else 0

def bytesToNatBE (l : List Nat) : Nat :=
  l.foldl (fun acc b => acc * 256 + b) 0

/-- Base58 encoding (`str` of a `Pubkey`). -/
def b58encode (bytes : List Nat) : String :=
  ⟨List.replicate (countLeadingZeroBytes bytes) '1' ++ natToB58Digits 64 (bytesToNatBE bytes)⟩

/-- `Pubkey.from_string`: base58 decode that must yield exactly 32 bytes;
`none` models the raised `ValueError`. -/
def pubkey_from_string (s : String) : Option (List Nat) :=
  match b58decode s with
  | some bytes => if bytes.length = 32 then some bytes else none
  | none => none

/-! SHA-256 over byte lists, words as `Nat % 2 ^ 32`. -/

def rotr32 (w n : Nat) : Nat :=
  ((w >>> n) ||| (w <<< (32 - n))) % 4294967296

def beBytes (n v : Nat) : List Nat :=
  (List.range n).map (fun i => (v >>> (8 * (n - 1 - i))) % 256)

def sha256_k : List Nat :=
  [1116352408, 1899447441, 3049323471, 3921009573, 961987163,
   1508970993, 2453635748, 2870763221, 3624381080, 310598401,
   607225278, 1426881987, 1925078388, 2162078206, 2614888103,
   3248222580, 3835390401, 4022224774, 264347078, 604807628,
   770255983, 1249150122, 1555081692, 1996064986, 2554220882,
   2821834349, 2952996808, 3210313671, 3336571891, 3584528711,
   113926993, 338241895, 666307205, 773529912, 1294757372,
   1396182291, 1695183700, 1986661051, 2177026350, 2456956037,
   2730485921, 2820302411, 3259730800, 3345764771, 3516065817,
   3600352804, 4094571909, 275423344, 430227734, 506948616,
   659060556, 883997877, 958139571, 1322822218, 1537002063,
   1747873779, 1955562222, 2024104815, 2227730452, 2361852424,
   2428436474, 2756734187, 3204031479, 3329325298]

def sha256_h0 : List Nat :=
  [1779033703, 3144134277, 1013904242,
   2773480762, 1359893119, 2600822924,
   528734635, 1541459225]

/-- Pad the message to a multiple of 64 bytes: `0x80`, zeros, then the bit
length as 8 big-endian bytes. -/
def sha256_pad (msg : List Nat) : List Nat :=
  let L := msg.length
  let z := (119 - L % 64) % 64
  msg ++ [0x80] ++ List.replicate z 0 ++ beBytes 8 (L * 8)

def bytesToWords : List Nat → List Nat
  | b0 :: b1 :: b2 :: b3 :: rest =>
    ((((b0 * 256 + b1) * 256 + b2) * 256) + b3) :: bytesToWords rest
  | _ => []

def sha256_s0 (x : Nat) : Nat := (rotr32 x 7) ^^^ (rotr32 x 18) ^^^ (x >>> 3)

def sha256_s1 (x : Nat) : Nat := (rotr32 x 17) ^^^ (rotr32 x 19) ^^^ (x >>> 10)

/-- Extend the 16 block words to the 64-entry message schedule. -/
def sha256_extend (fuel : Nat) (w : List Nat) : List Nat :=
  match fuel with
  | 0 => w
  | f + 1 =>
    let n := w.length
    let nw := (w.getD (n - 16) 0 + sha256_s0 (w.getD (n - 15) 0) + w.getD (n - 7) 0 +
               sha256_s1 (w.getD (n - 2) 0)) % 4294967296
    sha256_extend f (w ++ [nw])

def sha256_S0 (x : Nat) : Nat := (rotr32 x 2) ^^^ (rotr32 x 13) ^^^ (rotr32 x 22)

def sha256_S1 (x : Nat) : Nat := (rotr32 x 6) ^^^ (rotr32 x 11) ^^^ (rotr32 x 25)

def sha256_ch (x y z : Nat) : Nat := (x &&& y) ^^^ ((x ^^^ 4294967295) &&& z)

def sha256_maj (x y z : Nat) : Nat := (x &&& y) ^^^ (x &&& z) ^^^ (y &&& z)

def sha256_round (st : List Nat) (kw : Nat × Nat) : List Nat :=
  match st with
  | [a, b, c, d, e, f, g, h] =>
    let t1 := (h + sha256_S1 e + sha256_ch e f g + kw.1 + kw.2) % 4294967296
    let t2 := (sha256_S0 a + sha256_maj a b c) % 4294967296
    [(t1 + t2) % 4294967296, a, b, c, (d + t1) % 4294967296, e, f, g]
  | s => s

def sha256_block (h : List Nat) (block : List Nat) : List Nat :=
  let w := sha256_extend 48 (bytesToWords block)
  let st := (sha256_k.zip w).foldl sha256_round h
  (h.zip st).map (fun p => (p.1 + p.2) % 4294967296)

def chunks64 (fuel : Nat) (l : List Nat) : List (List Nat) :=
  match fuel, l with
  | 0, _ => []
  | _, [] => []
  | f + 1, l => l.take 64 :: chunks64 f (l.drop 64)

/-- SHA-256 digest (32 bytes) of a byte list. -/
def sha256 (msg : List Nat) : List Nat :=
  let padded := sha256_pad msg
  let hs := (chunks64 padded.length padded).foldl sha256_block sha256_h0
  (hs.map (beBytes 4)).flatten

/-! The ed25519 "is on curve" test used by `find_program_address`: a PDA
candidate digest is rejected exactly when it decompresses to a curve point
(successful `sqrt_ratio` for x² = (y²-1)/(d·y²+1)). -/

def ED_P : Nat := 2 ^ 255 - 19

def ED_D : Nat := 37095705934669439343138083508754565189542113879843219016388785533085940283555

def powMod (fuel b e m : Nat) : Nat :=
  match fuel with
  | 0 => 1 % m
  | f + 1 =>
    if e = 0 then 1 % m
    else
      let r := powMod f ((b * b) % m) (e / 2) m
      if e % 2 = 1 then (r * b) % m else r

def bytesToNatLE (l : List Nat) : Nat :=
  l.foldr (fun b acc => acc * 256 + b) 0

def isOnCurve (bytes : List Nat) : Bool :=
  let y := bytesToNatLE bytes % 2 ^ 255 % ED_P
  let yy := y * y % ED_P
  let u := (yy + ED_P - 1) % ED_P
  let v := (ED_D * yy + 1) % ED_P
  let v3 := v * v % ED_P * v % ED_P
  let v7 := v3 * v3 % ED_P * v % ED_P
  let r := u * v3 % ED_P * powMod 256 (u * v7 % ED_P) ((ED_P - 5) / 8) ED_P % ED_P
  let check := v * r % ED_P * r % ED_P
  check == u || check == (ED_P - u) % ED_P

def PDA_MARKER : List Nat := [80, 114, 111, 103, 114, 97, 109, 68, 101, 114, 105, 118, 101, 100,
  65, 100, 100, 114, 101, 115, 115]

/-- `Pubkey.create_program_address`: SHA-256 of seeds ++ program id ++
`b"ProgramDerivedAddress"`, invalid when the digest lies on the curve. -/
def create_program_address (seeds : List (List Nat)) (program_id : List Nat) :
    Option (List Nat) :=
  let h := sha256 (seeds.flatten ++ program_id ++ PDA_MARKER)
  if isOnCurve h then none else some h

def find_program_address_aux (seeds : List (List Nat)) (program_id : List Nat) :
    Nat → Option (List Nat × Nat)
  | 0 => none
  | b + 1 =>
    match create_program_address (seeds ++ [[b]]) program_id with
    | some a => some (a, b)
    | none => find_program_address_aux seeds program_id b

/-- `Pubkey.find_program_address`: bump seeds 255, 254, … down to 0. -/
def find_program_address (seeds : List (List Nat)) (program_id : List Nat) :
    Option (List Nat × Nat) :=
  find_program_address_aux seeds program_id 256

def TOKEN_PROGRAM_ID : String := "TokenkegQfeZyiNwAJbNbGKPFXCWuBvf9Ss623VQ5DA"

def ASSOCIATED_TOKEN_PROGRAM_ID : String := "ATokenGPvbdGVxr1b2hvZbsiqW5xWH25efTNsLJA8knL"

/-- Associated token account derivation of `verify_transaction_on_chain`
(solana_utils.py lines 184-194): seeds
`[bytes(recipient), bytes(token_program), bytes(mint)]`, result rendered as a
base58 string; `none` models the `except` branch that leaves
`expected_ata = None`. -/
def derive_expected_ata (recipient_pk mint_pk : List Nat) : Option String :=
  match b58decode TOKEN_PROGRAM_ID, b58decode ASSOCIATED_TOKEN_PROGRAM_ID with
  | some token_program_id, some associated_token_program_id =>
    match find_program_address [recipient_pk, token_program_id, mint_pk]
        associated_token_program_id with
    | some (addr, _) => some (b58encode addr)
    | none => none
  | _, _ => none

/-- Associated token account derivation of `verify_transaction_on_chain_old`
(solana_utils.py lines 576-584): identical except for the extra literal first
seed `b"ata"` = `[97, 116, 97]`. -/
def derive_expected_ata_old (recipient_pk mint_pk : List Nat) : Option String :=
  match b58decode TOKEN_PROGRAM_ID, b58decode ASSOCIATED_TOKEN_PROGRAM_ID with
  | some token_program_id, some associated_token_program_id =>
    match find_program_address [[97, 116, 97], recipient_pk, token_program_id, mint_pk]
        associated_token_program_id with
    | some (addr, _) => some (b58encode addr)
    | none => none
  | _, _ => none

/-- Modelled from the spec: the canonical associated-token-account derivation
("a deterministic address derived from recipient+mint+program constants —
must use the canonical derivation"), i.e. `find_program_address` over the
seeds `[owner, token_program, mint]` under the associated token program. -/
def canonical_ata_spec (owner_pk mint_pk : List Nat) : Option String :=
  match b58decode TOKEN_PROGRAM_ID, b58decode ASSOCIATED_TOKEN_PROGRAM_ID with
  | some token_program_id, some associated_token_program_id =>
    match find_program_address [owner_pk, token_program_id, mint_pk]
        associated_token_program_id with
    | some (addr, _) => some (b58encode addr)
    | none => none
  | _, _ => none

/-! ### solana_utils.py — verify_transaction_on_chain -/

/-- Parsed payload of a jsonParsed SPL-token instruction, as read by
`verify_transaction_on_chain` (solana_utils.py lines 256-296): the `type`
field, `info.get('amount')` (for `transfer`),
`info.get('tokenAmount', {}).get('amount')` (for `transferChecked`), and
`info.get('destination', '')`.  `none` models an absent dict key, falling
back to the `'0'` defaults. -/
structure ParsedInstrInfo where
  ptype : String
  amount : Option String
  tokenAmount_amount : Option String
  destination : String
deriving DecidableEq, Repr

/-- One transaction instruction after the source's variant normalisation
(solana_utils.py lines 222-250): the resolved program id string (`none` when
resolution failed), the resolved instruction account pubkey strings, and the
parsed payload (`none` when `parsed` is absent or falsy, triggering the
heuristic branch of lines 297-304). -/
structure InstrData where
  program_id : Option String
  accounts : List String
  parsed : Option ParsedInstrInfo
deriving DecidableEq, Repr

/-- The fields of a fetched transaction that the verifier reads: the on-chain
error (already merged with the `get_signature_statuses` fallback of lines
150-157 — `meta_err` is the definite `meta.err`, `status_err` below the
fallback value), the normalised account key strings, and the instructions. -/
structure TxResp where
  meta_err : Option String
  account_keys : List String
  instructions : List InstrData
deriving DecidableEq, Repr

/-- Python `int(...)` on the decimal amount strings supplied by the RPC
layer: `none` models the raised `ValueError` on a non-numeric string, which
the outer catch-all turns into a `False` result. -/
def pyInt (s : String) : Option Nat :=
  if s.data ≠ [] ∧ s.data.all Char.isDigit then
    some (s.data.foldl (fun acc c => acc * 10 + (c.toNat - 48)) 0)
  else none

/-- Effect of one instruction on the loop of `verify_transaction_on_chain`
(solana_utils.py lines 222-304): `some r` when the loop `break`s with the
function then returning `r`, `none` when it continues.  A parsed
`transfer`/`transferChecked` instruction breaks with the amount verdict
(`token_transfer_verified` and `amount_verified` of lines 266-296, returned
by lines 306-319); the destination comparison of lines 287-294 only prints
and does not feed into the result; a malformed amount string makes `int()`
raise, which the outer catch-all turns into `False`.  Without a parsed
payload, the heuristic of lines 297-304 breaks with `True` iff the derived
associated token account participates in the instruction. -/
def scan_step (i : InstrData) (expected_amount : Nat) (expected_ata : Option String) :
    Option Bool :=
  if i.program_id = some TOKEN_PROGRAM_ID then
    match i.parsed with
    | some p =>
      if p.ptype = "transfer" ∨ p.ptype = "transferChecked" then
        some (match pyInt ((if p.ptype = "transfer" then p.amount
                            else p.tokenAmount_amount).getD "0") with
              | none => false
              | some transfer_amount => decide (transfer_amount ≥ expected_amount))
      else none
    | none =>
      match expected_ata with
      | some a => if i.accounts.contains a then some true else none
      | none => none
  else none

def scan_instructions (instrs : List InstrData) (expected_amount : Nat)
    (expected_ata : Option String) : Bool :=
  match instrs with
  | [] => false
  | i :: rest =>
    match scan_step i expected_amount expected_ata with
    | some result => result
    | none => scan_instructions rest expected_amount expected_ata

/-- Embedding of `verify_transaction_on_chain` (solana_utils.py lines
94-325).  `fetch` is the outcome of `client.get_transaction`: `.error` models
a raised exception (unreachable chain reader), `.ok none` a missing
transaction.  `status_err` is the `get_signature_statuses` fallback result
consulted when `meta.err` is absent (its own exceptions already collapse to
`none` in the source).  The outer `try`/`except` returns false on any raised
exception, including invalid pubkey strings and malformed amounts. -/
def verify_transaction_on_chain (fetch : Except String (Option TxResp))
    (status_err : Option String) (recipient : String) (expected_amount : Nat)
    (token_mint : String) (reference : String) : Bool :=
  match fetch with
  | .error _ => false
  | .ok none => false
  | .ok (some tx) =>
    let tx_err := match tx.meta_err with | some e => some e | none => status_err
    if tx_err.isSome then false
    else
      match pubkey_from_string recipient, pubkey_from_string reference,
          pubkey_from_string token_mint with
      | some recipient_pubkey, some reference_pubkey, some mint_pubkey =>
        let account_pubkeys_str := tx.account_keys
        let recipient_found := account_pubkeys_str.contains (b58encode recipient_pubkey)
        let expected_ata := derive_expected_ata recipient_pubkey mint_pubkey
        let recipient_ata_found := match expected_ata with
          | some a => account_pubkeys_str.contains a
          | none => false
        if !(recipient_found || recipient_ata_found) then false
        else if !(account_pubkeys_str.contains (b58encode reference_pubkey)) then false
        else scan_instructions tx.instructions expected_amount expected_ata
      | _, _, _ => false

/-- Replace the `destination` field of an instruction's parsed payload (used
to state that the verifier's result does not depend on it). -/
def set_instr_destination (d : String) (i : InstrData) : InstrData :=
  { i with parsed := i.parsed.map (fun p => { p with destination := d }) }

/-- Replace every parsed destination in a transaction. -/
def set_tx_destinations (d : String) (tx : TxResp) : TxResp :=
  { tx with instructions := tx.instructions.map (set_instr_destination d) }

/-- An instruction is decisive for the scan loop when it makes the loop
`break`: an SPL-token instruction with a parsed `transfer`/`transferChecked`
payload, or — lacking a parsed payload — one whose account list contains the
derived associated token account. -/
def instr_is_decisive (expected_ata : Option String) (i : InstrData) : Bool :=
  if i.program_id = some TOKEN_PROGRAM_ID then
    match i.parsed with
    | some p => decide (p.ptype = "transfer" ∨ p.ptype = "transferChecked")
    | none =>
      match expected_ata with
      | some a => i.accounts.contains a
      | none => false
  else false

/-! ### Concrete fixtures for witnesses and counterexamples -/

/-- A valid base58 pubkey string: 32 zero bytes. -/
def fixRecipient : String := "11111111111111111111111111111111"

/-- A second valid pubkey string: 31 zero bytes then `0x01`. -/
def fixReference : String := "11111111111111111111111111111112"

/-- The USDC mint from `SolanaPayment.USDC_MINT` (models.py line 115). -/
def fixMint : String := "EPjFWdd5AufqSSqeM2qN1xzybapC8G4wEGGkZwyTDt1v"

def fixRecipientPk : List Nat := List.replicate 32 0

def fixReferencePk : List Nat := List.replicate 31 0 ++ [1]

def fixMintPk : List Nat := (b58decode fixMint).getD []

/-- A payment already in `confirmed` state together with its order. -/
def confirmedPayState : PayState :=
  ⟨⟨PaymentStatus.confirmed, some "oldsig", some 5⟩, OrderStatus.payment_received⟩

/-- Transaction whose only SPL instruction is a parsed `transfer` of
60000000 base units to destination `""` (matching neither the recipient nor
any associated token account), with recipient and reference present among
the account keys. -/
def mismatchedDestTx : TxResp :=
  ⟨none, [fixRecipient, fixReference, TOKEN_PROGRAM_ID],
   [⟨some TOKEN_PROGRAM_ID, [], some ⟨"transfer", some "60000000", none, ""⟩⟩]⟩

/-- Transaction containing the recipient but not the reference key. -/
def missingReferenceTx : TxResp :=
  ⟨none, [fixRecipient, TOKEN_PROGRAM_ID],
   [⟨some TOKEN_PROGRAM_ID, [], some ⟨"transfer", some "999999999", none, ""⟩⟩]⟩

/-- Transaction with a parsed `transfer` of 75000000 base units (strictly
above the expected 50000000), recipient and reference present. -/
def overpayTx : TxResp :=
  ⟨none, [fixRecipient, fixReference, TOKEN_PROGRAM_ID],
   [⟨some TOKEN_PROGRAM_ID, [], some ⟨"transfer", some "75000000", none, ""⟩⟩]⟩

/-! ### Lemmas -/

lemma char_toNat_ofNat_shift (n : Nat) (h1 : 65 ≤ n) (h2 : n ≤ 90) :
    (Char.ofNat (n + 32)).toNat = n + 32 := by
  have hv : Nat.isValidChar (n + 32) := Or.inl (by omega)
  simp only [Char.ofNat, hv, dif_pos, Char.ofNatAux, Char.toNat, UInt32.toNat,
    BitVec.toNat_ofNatLt]

/-- Characters below the lowercase range are only reached by `Char.toLower`
from themselves. -/
lemma char_toLower_fix (c d : Char) (hd : d.toNat < 97) (h : c.toLower = d) : c = d := by
  unfold Char.toLower at h
  dsimp only at h
  split at h
  case isTrue hc =>
    exfalso
    have hc' : 65 ≤ c.toNat ∧ c.toNat ≤ 90 := by simpa using hc
    have h2 := congrArg Char.toNat h
    rw [char_toNat_ofNat_shift c.toNat hc'.1 hc'.2] at h2
    omega
  case isFalse => exact h

lemma prefix_of_map_toLower (p : List Char) (hp : ∀ c ∈ p, c.toNat < 97) :
    ∀ s : List Char, p <+: s.map Char.toLower → p <+: s := by
  induction p with
  | nil => intro s _; exact List.nil_prefix
  | cons c p ih =>
    intro s hs
    cases s with
    | nil => simp at hs
    | cons d s' =>
      rw [List.map_cons, List.cons_prefix_cons] at hs
      obtain ⟨hcd, hrest⟩ := hs
      obtain rfl : d = c := char_toLower_fix d c (hp c (by simp)) hcd.symm
      rw [List.cons_prefix_cons]
      exact ⟨rfl, ih (fun x hx => hp x (by simp [hx])) s' hrest⟩

lemma infix_map_toLower_iff (p : List Char) (hp : ∀ c ∈ p, c.toNat < 97 ∧ c.toLower = c) :
    ∀ s : List Char, (p <:+: s.map Char.toLower) ↔ p <:+: s := by
  intro s
  induction s with
  | nil => simp
  | cons d s' ih =>
    rw [List.map_cons, List.infix_cons_iff, List.infix_cons_iff]
    constructor
    · rintro (h | h)
      · exact Or.inl (prefix_of_map_toLower p (fun c hc => (hp c hc).1) (d :: s')
          (by simpa using h))
      · exact Or.inr (ih.mp h)
    · rintro (h | h)
      · left
        have hmap : p.map Char.toLower = p := by
          calc p.map Char.toLower = p.map id := List.map_congr_left (fun c hc => (hp c hc).2)
          _ = p := List.map_id p
        have h2 := h.map Char.toLower
        rwa [hmap, List.map_cons] at h2
      · exact Or.inr (ih.mpr h)

/-- Lower-casing does not affect occurrences of the digit string `"401"`. -/
lemma pyContains_pyLower_401 (s : String) :
    pyContains (pyLower s) "401" = pyContains s "401" := by
  have h : ∀ c ∈ ("401" : String).data, c.toNat < 97 ∧ c.toLower = c := by decide
  simp only [pyContains, pyLower, decide_eq_decide]
  exact infix_map_toLower_iff _ h s.data

lemma process_query_jobs_length (rs : List JobResult) :
    (process_query_jobs rs).length = rs.length := by
  induction rs with
  | nil => rfl
  | cons r rest ih =>
    cases r with
    | success => simpa [process_query_jobs] using ih
    | failure msg t => cases t <;> simp [process_query_jobs, ih]

lemma scan_step_none_of_not_decisive (j : InstrData) (e : Nat) (ata : Option String)
    (h : instr_is_decisive ata j = false) : scan_step j e ata = none := by
  unfold instr_is_decisive at h
  unfold scan_step
  by_cases hpid : j.program_id = some TOKEN_PROGRAM_ID
  · rw [if_pos hpid] at h ⊢
    cases hp : j.parsed with
    | some p =>
      rw [hp] at h
      simp only [decide_eq_false_iff_not] at h
      simp [h]
    | none =>
      rw [hp] at h
      cases ha : ata with
      | some a =>
        rw [ha] at h
        simp only at h
        have h2 : a ∉ j.accounts := by simpa using h
        simp [h2]
      | none => rfl
  · rw [if_neg hpid] at h ⊢

lemma scan_instructions_skip (j : InstrData) (rest : List InstrData) (e : Nat)
    (ata : Option String) (h : instr_is_decisive ata j = false) :
    scan_instructions (j :: rest) e ata = scan_instructions rest e ata := by
  rw [scan_instructions, scan_step_none_of_not_decisive j e ata h]

lemma scan_instructions_skip_append (pre : List InstrData) (l : List InstrData) (e : Nat)
    (ata : Option String) (h : ∀ j ∈ pre, instr_is_decisive ata j = false) :
    scan_instructions (pre ++ l) e ata = scan_instructions l e ata := by
  induction pre with
  | nil => rfl
  | cons j pre ih =>
    rw [List.cons_append, scan_instructions_skip j _ e ata (h j (by simp))]
    exact ih (fun x hx => h x (by simp [hx]))

lemma scan_step_set_destination (d : String) (i : InstrData) (e : Nat)
    (ata : Option String) :
    scan_step (set_instr_destination d i) e ata = scan_step i e ata := by
  unfold scan_step
  cases hp : i.parsed with
  | some p => simp [set_instr_destination, hp]
  | none => simp [set_instr_destination, hp]

lemma scan_instructions_set_destination (d : String) (instrs : List InstrData) (e : Nat)
    (ata : Option String) :
    scan_instructions (instrs.map (set_instr_destination d)) e ata =
      scan_instructions instrs e ata := by
  induction instrs with
  | nil => rfl
  | cons i rest ih =>
    rw [List.map_cons, scan_instructions, scan_step_set_destination, scan_instructions]
    cases scan_step i e ata <;> simp [ih]

-- Concrete evaluation of the current implementation's associated token
-- account for the fixture (recipient, USDC mint) pair.
set_option maxRecDepth 100000 in
set_option maxHeartbeats 1000000 in
lemma derive_expected_ata_fix :
    derive_expected_ata fixRecipientPk fixMintPk =
      some "HJt8Tjdsc9ms9i4WCZEzhzr4oyf3ANcdzXrNdLPFqm3M" := by
  decide

-- Concrete evaluation of the old implementation's associated token account
-- for the same (recipient, USDC mint) pair: the extra seed bytes make the
-- first bump candidate land on the curve, and the derivation settles on a
-- different address at bump 254.
set_option maxRecDepth 100000 in
set_option maxHeartbeats 1000000 in
lemma derive_expected_ata_old_fix :
    derive_expected_ata_old fixRecipientPk fixMintPk =
      some "3AZRAMejdKncUMtv3FEeZVmN96etW9fNFff3p9WnHAj2" := by
  decide

lemma order_status_from_jobs_iff (statuses : List String) (hne : statuses ≠ []) :
    (order_status_from_jobs statuses = WalletAnalysisOrder.STATUS_COMPLETED ↔
       statuses.countP (fun s => s == DuneQueryJob.STATUS_COMPLETED) = statuses.length) ∧
    (order_status_from_jobs statuses = WalletAnalysisOrder.STATUS_PARTIAL_COMPLETE ↔
       0 < statuses.countP (fun s => s == DuneQueryJob.STATUS_COMPLETED) ∧
         statuses.countP (fun s => s == DuneQueryJob.STATUS_COMPLETED) < statuses.length) ∧
    (order_status_from_jobs statuses = WalletAnalysisOrder.STATUS_FAILED ↔
       statuses.countP (fun s => s == DuneQueryJob.STATUS_COMPLETED) = 0) := by
  have hMle : statuses.countP (fun s => s == DuneQueryJob.STATUS_COMPLETED) ≤ statuses.length :=
    List.countP_le_length _
  have hN0 : statuses.length ≠ 0 := by
    simpa [List.length_eq_zero] using hne
  unfold order_status_from_jobs
  dsimp only
  by_cases h1 : statuses.countP (fun s => s == DuneQueryJob.STATUS_COMPLETED) = statuses.length
  · rw [if_pos h1]
    refine ⟨by simp [h1], ?_, ?_⟩
    · constructor
      · intro hc; exact absurd hc (by decide)
      · intro hc; omega
    · constructor
      · intro hc; exact absurd hc (by decide)
      · intro hc; omega
  · rw [if_neg h1]
    by_cases h2 : 0 < statuses.countP (fun s => s == DuneQueryJob.STATUS_COMPLETED)
    · rw [if_pos h2]
      refine ⟨?_, ⟨fun _ => ⟨h2, Nat.lt_of_le_of_ne hMle h1⟩, fun _ => rfl⟩, ?_⟩
      · constructor
        · intro hc; exact absurd hc (by decide)
        · intro hc; exact absurd hc h1
      · constructor
        · intro hc; exact absurd hc (by decide)
        · intro hc; omega
    · rw [if_neg h2]
      refine ⟨?_, ?_, ⟨fun _ => by omega, fun _ => rfl⟩⟩
      · constructor
        · intro hc; exact absurd hc (by decide)
        · intro hc; exact absurd hc h1
      · constructor
        · intro hc; exact absurd hc (by decide)
        · intro hc; omega

/-! ### Claims -/

/-- C10: `DuneQueryJob.is_retryable` returns true iff `error_type` is set
(non-null, non-empty) and is neither `query_error` nor `auth_error`; in
particular a job with no error classification is reported as not
retryable. -/
theorem is_retryable_iff (e : Option String) :
    DuneQueryJob.is_retryable e = true ↔
      ∃ s, e = some s ∧ s ≠ "" ∧ s ≠ "query_error" ∧ s ≠ "auth_error" := by
  cases e with
  | none => simp [DuneQueryJob.is_retryable, DuneQueryJob.pyTruthyStr]
  | some s =>
    by_cases hs : s = ""
    · subst hs
      simp [DuneQueryJob.is_retryable, DuneQueryJob.pyTruthyStr]
    · simp [DuneQueryJob.is_retryable, DuneQueryJob.pyTruthyStr, hs,
        DuneQueryJob.ERROR_QUERY, DuneQueryJob.ERROR_AUTH]

/-- C5: job-failure error classification matches the lower-cased message
against known substrings with fixed priority (`rate limit`, then
`auth`/`401`, then `timeout`, then `query`/`execution`), defaulting to
`network_error`; `rate limit exceeded` classifies to `rate_limit`,
`401 unauthorized` to `auth_error`, and an unrecognized message to
`network_error`. -/
theorem classify_error_priority (msg : String) :
    (classify_error msg =
      if pyContains (pyLower msg) "rate limit" then "rate_limit"
      else if pyContains (pyLower msg) "auth" || pyContains (pyLower msg) "401" then "auth_error"
      else if pyContains (pyLower msg) "timeout" then "network_error"
      else if pyContains (pyLower msg) "query" || pyContains (pyLower msg) "execution" then
        "query_error"
      else "network_error") ∧
    classify_error "rate limit exceeded" = "rate_limit" ∧
    classify_error "401 unauthorized" = "auth_error" ∧
    classify_error "flurb disconnected unexpectedly" = "network_error" := by
  refine ⟨?_, by decide, by decide, by decide⟩
  rw [classify_error, pyContains_pyLower_401]
  rfl

/-- C4: after a run of `execute_wallet_analysis` over N created query jobs of
which M end in `completed` status, the order status is `completed` iff M = N,
`partial_complete` iff 0 < M < N, and `failed` iff M = 0. -/
theorem order_status_aggregation_iff (results : List JobResult) (hne : results ≠ []) :
    (execute_wallet_analysis_order_status results = WalletAnalysisOrder.STATUS_COMPLETED ↔
       ((process_query_jobs results).map Prod.fst).countP
         (fun s => s == DuneQueryJob.STATUS_COMPLETED) = results.length) ∧
    (execute_wallet_analysis_order_status results = WalletAnalysisOrder.STATUS_PARTIAL_COMPLETE ↔
       0 < ((process_query_jobs results).map Prod.fst).countP
             (fun s => s == DuneQueryJob.STATUS_COMPLETED) ∧
         ((process_query_jobs results).map Prod.fst).countP
             (fun s => s == DuneQueryJob.STATUS_COMPLETED) < results.length) ∧
    (execute_wallet_analysis_order_status results = WalletAnalysisOrder.STATUS_FAILED ↔
       ((process_query_jobs results).map Prod.fst).countP
         (fun s => s == DuneQueryJob.STATUS_COMPLETED) = 0) := by
  have hlen : ((process_query_jobs results).map Prod.fst).length = results.length := by
    rw [List.length_map, process_query_jobs_length]
  have hne2 : (process_query_jobs results).map Prod.fst ≠ [] := by
    intro h
    apply hne
    have := congrArg List.length h
    rw [hlen] at this
    simpa [List.length_eq_zero] using this
  have h := order_status_from_jobs_iff ((process_query_jobs results).map Prod.fst) hne2
  rw [hlen] at h
  exact h

/-- C4 witness: one completed and one failed job out of two gives
`partial_complete`. -/
theorem order_status_aggregation_iff_witness :
    ([JobResult.success, JobResult.failure "boom" false] ≠ ([] : List JobResult)) ∧
    execute_wallet_analysis_order_status [JobResult.success, JobResult.failure "boom" false] =
      WalletAnalysisOrder.STATUS_PARTIAL_COMPLETE :=
  ⟨by decide,
   (order_status_aggregation_iff [JobResult.success, JobResult.failure "boom" false]
      (by decide)).2.1.mpr (by decide)⟩

/-- C9: within one run, after a job fails with a timeout no later job is
started (they stay `queued`), while a non-timeout failure lets processing
continue with the next job. -/
theorem timeout_stops_run_others_continue (pre rest : List JobResult) (msg : String)
    (hpre : ∀ r ∈ pre, r.isTimeoutFailure = false) :
    (process_query_jobs (pre ++ JobResult.failure msg true :: rest) =
       process_query_jobs pre ++
         (DuneQueryJob.STATUS_FAILED, some (classify_error msg)) ::
           rest.map (fun _ => (DuneQueryJob.STATUS_QUEUED, none))) ∧
    (∀ (msg2 : String) (rest2 : List JobResult),
       process_query_jobs (JobResult.failure msg2 false :: rest2) =
         (DuneQueryJob.STATUS_FAILED, some (classify_error msg2)) :: process_query_jobs rest2) := by
  constructor
  · induction pre with
    | nil => simp [process_query_jobs]
    | cons r pre ih =>
      have hr := hpre r (by simp)
      have hrest : ∀ x ∈ pre, x.isTimeoutFailure = false := fun x hx => hpre x (by simp [hx])
      cases r with
      | success => simp [process_query_jobs, ih hrest]
      | failure m t =>
        cases t with
        | false => simp [process_query_jobs, ih hrest]
        | true => simp [JobResult.isTimeoutFailure] at hr
  · intro msg2 rest2
    simp [process_query_jobs]

/-- C9 witness: a run with a successful job, then a timeout failure, then one
more configured job: the last job stays `queued`. -/
theorem timeout_stops_run_others_continue_witness :
    (∀ r ∈ [JobResult.success], r.isTimeoutFailure = false) ∧
    process_query_jobs
        ([JobResult.success] ++ JobResult.failure "polling timed out" true :: [JobResult.success]) =
      process_query_jobs [JobResult.success] ++
        (DuneQueryJob.STATUS_FAILED, some (classify_error "polling timed out")) ::
          [JobResult.success].map (fun _ => (DuneQueryJob.STATUS_QUEUED, none)) :=
  ⟨by decide,
   (timeout_stops_run_others_continue [JobResult.success] [JobResult.success]
      "polling timed out" (by decide)).1⟩

/-- C1 (counterexample): the claim fails at the manual verification page —
for a payment already `confirmed`, `verify_signature_view` still runs
on-chain verification once, enqueues a second analysis task, and rewrites the
payment row (new signature and confirmation time). -/
theorem manual_verify_reconfirms_paid_payment :
    confirmedPayState.payment.is_paid = true ∧
    (verify_signature_view_post confirmedPayState "newsig" true 99).2.2.verify_calls = 1 ∧
    (verify_signature_view_post confirmedPayState "newsig" true 99).2.2.enqueued_analysis = 1 ∧
    (verify_signature_view_post confirmedPayState "newsig" true 99).2.1 ≠ confirmedPayState := by
  decide

/-- C1 (amended): for a payment already `confirmed`/`finalized`, the API
endpoint returns success idempotently without re-verification, state change
or a second enqueue, and the sweeper's pending-only filter skips the payment
entirely; the manual verification page, however, lacks this guard (see the
counterexample). -/
theorem paid_payment_idempotent_api_and_sweeper (st : PayState) (oid sig : String)
    (verdict : Bool) (now : Nat) (h : st.payment.is_paid = true) :
    (verify_payment_api st oid sig verdict now).2.1 = st ∧
    (verify_payment_api st oid sig verdict now).2.2 = ⟨0, 0⟩ ∧
    (oid ≠ "" → sig ≠ "" → (verify_payment_api st oid sig verdict now).1 = ⟨true, 200⟩) ∧
    (∀ e : SweepEntry, e.st = st → sweep_one e now = (st, ⟨0, 0⟩)) := by
  have hst : st.payment.status = PaymentStatus.confirmed ∨
      st.payment.status = PaymentStatus.finalized := by
    simpa [SolanaPaymentRow.is_paid] using h
  refine ⟨?_, ?_, ?_, ?_⟩
  · unfold verify_payment_api
    by_cases h0 : oid = "" ∨ sig = ""
    · rw [if_pos h0]
    · rw [if_neg h0, if_pos h]
  · unfold verify_payment_api
    by_cases h0 : oid = "" ∨ sig = ""
    · rw [if_pos h0]
    · rw [if_neg h0, if_pos h]
  · intro ho hs
    unfold verify_payment_api
    rw [if_neg (by tauto), if_pos h]
  · intro e he
    unfold sweep_one
    rw [if_neg ?_, he]
    rintro ⟨hp, _⟩
    rw [he] at hp
    rcases hst with h2 | h2 <;> rw [h2] at hp <;> exact absurd hp (by decide)

/-- C1 amended witness: concrete confirmed payment, concrete API call. -/
theorem paid_payment_idempotent_api_and_sweeper_witness :
    confirmedPayState.payment.is_paid = true ∧
    (verify_payment_api confirmedPayState "oid1" "sig1" true 7).2.1 = confirmedPayState ∧
    (verify_payment_api confirmedPayState "oid1" "sig1" true 7).2.2 = ⟨0, 0⟩ :=
  ⟨by decide,
   (paid_payment_idempotent_api_and_sweeper confirmedPayState "oid1" "sig1" true 7 (by decide)).1,
   (paid_payment_idempotent_api_and_sweeper confirmedPayState "oid1" "sig1" true 7 (by decide)).2.1⟩

/-- C3 (counterexample): when the chain reader is unreachable (the fetch
raises), `verify_transaction_on_chain` does not propagate the exception — the
catch-all handler returns the same boolean `false` that a missing transaction
produces, so the retryable error is not distinguishable from "verification
failed". -/
theorem verify_swallows_infrastructure_error :
    verify_transaction_on_chain (Except.error "connection refused") none fixRecipient
        50000000 fixMint fixReference = false ∧
    verify_transaction_on_chain (Except.ok none) none fixRecipient
        50000000 fixMint fixReference = false :=
  ⟨rfl, rfl⟩

/-- C3 (amended): `verify_transaction_on_chain` never raises at all — a
non-matching or missing transaction returns `false`, and an unreachable chain
reader is swallowed by the catch-all `except` and also returns `false`. -/
theorem verify_returns_false_never_raises (e : String) (se : Option String)
    (r m ref : String) (amt : Nat) :
    verify_transaction_on_chain (Except.error e) se r amt m ref = false ∧
    verify_transaction_on_chain (Except.ok none) se r amt m ref = false :=
  ⟨rfl, rfl⟩

/-- C6 (counterexample): the two transaction-verification implementations do
not derive the same associated token account from the same inputs — the old
one prepends the literal seed bytes `b"ata"`, and at the fixture
(recipient, USDC mint) pair the two derivations produce different
addresses. -/
theorem ata_derivations_disagree :
    derive_expected_ata_old fixRecipientPk fixMintPk ≠
      derive_expected_ata fixRecipientPk fixMintPk := by
  rw [derive_expected_ata_fix, derive_expected_ata_old_fix]
  decide

/-- C6 (amended): the derivation is a pure function of (recipient, mint) and
the program constants, and the current implementation agrees with the
canonical associated-token-account derivation over the seeds
`[owner, token_program, mint]`; the old implementation's extra `b"ata"` seed
yields a different address (concretely witnessed). -/
theorem ata_new_canonical_old_divergent :
    (∀ owner_pk mint_pk : List Nat,
       derive_expected_ata owner_pk mint_pk = canonical_ata_spec owner_pk mint_pk) ∧
    derive_expected_ata_old fixRecipientPk fixMintPk ≠
      derive_expected_ata fixRecipientPk fixMintPk :=
  ⟨fun _ _ => rfl,
   by rw [derive_expected_ata_fix, derive_expected_ata_old_fix]; decide⟩

/-- C2 (counterexample): a transaction whose parsed transfer carries a
sufficient amount but whose destination (here the empty string) matches
neither the recipient wallet nor the recipient's derived associated token
account is still accepted — the destination check of the spec is not
enforced by the code. -/
theorem verify_accepts_mismatched_destination :
    verify_transaction_on_chain (Except.ok (some mismatchedDestTx)) none fixRecipient
        50000000 fixMint fixReference = true ∧
    ("" : String) ≠ fixRecipient ∧
    derive_expected_ata fixRecipientPk fixMintPk ≠ some "" := by
  refine ⟨by decide, by decide, ?_⟩
  rw [derive_expected_ata_fix]
  decide

/-- C2 (amended): `verify_transaction_on_chain` reads the parsed destination
only for logging: its result is invariant under arbitrary replacement of
every destination field, so a parsed transfer with sufficient amount is
accepted regardless of where the funds went. -/
theorem verify_result_ignores_destination (d : String) (tx : TxResp)
    (se : Option String) (r m ref : String) (amt : Nat) :
    verify_transaction_on_chain (Except.ok (some (set_tx_destinations d tx))) se r amt m ref =
      verify_transaction_on_chain (Except.ok (some tx)) se r amt m ref := by
  unfold verify_transaction_on_chain set_tx_destinations
  dsimp only
  simp only [scan_instructions_set_destination]

/-- C7: a transaction whose account keys do not contain the expected
reference public key is rejected, regardless of every other check. -/
theorem verify_rejects_missing_reference (tx : TxResp) (se : Option String)
    (r m ref : String) (amt : Nat) (refPk : List Nat)
    (href : pubkey_from_string ref = some refPk)
    (habsent : tx.account_keys.contains (b58encode refPk) = false) :
    verify_transaction_on_chain (Except.ok (some tx)) se r amt m ref = false := by
  unfold verify_transaction_on_chain
  dsimp only
  rw [href]
  split
  · rfl
  · cases hr : pubkey_from_string r with
    | none => rfl
    | some rPk =>
      cases hm : pubkey_from_string m with
      | none => rfl
      | some mPk =>
        dsimp only
        split
        · rfl
        · rw [habsent]
          rfl

/-- C7 witness: recipient present, reference absent, generous amount — still
rejected. -/
theorem verify_rejects_missing_reference_witness :
    pubkey_from_string fixReference = some fixReferencePk ∧
    missingReferenceTx.account_keys.contains (b58encode fixReferencePk) = false ∧
    verify_transaction_on_chain (Except.ok (some missingReferenceTx)) none fixRecipient
        50000000 fixMint fixReference = false :=
  ⟨by decide, by decide,
   verify_rejects_missing_reference missingReferenceTx none fixRecipient fixMint fixReference
     50000000 fixReferencePk (by decide) (by decide)⟩

/-- C8: when every gate passes and the first decisive instruction is a parsed
`transfer`/`transferChecked` carrying amount `a`, the verifier accepts iff
`a ≥ amt` — in particular strictly larger amounts are accepted — and the
instructions after the first decisive one are irrelevant (no aggregation
across instructions). -/
theorem verify_amount_geq_first_match (tx : TxResp) (r m ref : String) (amt a : Nat)
    (rPk mPk refPk : List Nat)
    (hr : pubkey_from_string r = some rPk) (hm : pubkey_from_string m = some mPk)
    (href : pubkey_from_string ref = some refPk)
    (hmeta : tx.meta_err = none)
    (hrec : tx.account_keys.contains (b58encode rPk) = true)
    (hrefc : tx.account_keys.contains (b58encode refPk) = true)
    (pre post : List InstrData) (i : InstrData) (p : ParsedInstrInfo)
    (hinstrs : tx.instructions = pre ++ i :: post)
    (hpre : ∀ j ∈ pre, instr_is_decisive (derive_expected_ata rPk mPk) j = false)
    (hpid : i.program_id = some TOKEN_PROGRAM_ID) (hip : i.parsed = some p)
    (hp : p.ptype = "transfer" ∨ p.ptype = "transferChecked")
    (ha : pyInt ((if p.ptype = "transfer" then p.amount else p.tokenAmount_amount).getD "0") =
       some a) :
    (a ≥ amt → verify_transaction_on_chain (Except.ok (some tx)) none r amt m ref = true) ∧
    (a < amt → verify_transaction_on_chain (Except.ok (some tx)) none r amt m ref = false) := by
  have hmain : verify_transaction_on_chain (Except.ok (some tx)) none r amt m ref =
      decide (a ≥ amt) := by
    unfold verify_transaction_on_chain
    dsimp only
    rw [hmeta, hr, hm, href]
    dsimp only
    rw [hrec]
    simp only [Bool.true_or, Bool.not_true, Bool.false_eq_true, if_false, hrefc,
      Bool.not_true, if_false]
    rw [hinstrs, scan_instructions_skip_append _ _ _ _ hpre, scan_instructions]
    unfold scan_step
    rw [if_pos hpid, hip]
    dsimp only
    rw [if_pos hp, ha]
    rfl
  constructor
  · intro hge
    rw [hmain]
    simpa using hge
  · intro hlt
    rw [hmain]
    simpa using Nat.not_le_of_lt hlt

/-- C8 witness: a parsed transfer of 75000000 against an expected 50000000
(strictly larger) with all gates passing is accepted. -/
theorem verify_amount_geq_first_match_witness :
    pubkey_from_string fixRecipient = some fixRecipientPk ∧
    pubkey_from_string fixMint = some fixMintPk ∧
    pubkey_from_string fixReference = some fixReferencePk ∧
    overpayTx.account_keys.contains (b58encode fixRecipientPk) = true ∧
    overpayTx.account_keys.contains (b58encode fixReferencePk) = true ∧
    (75000000 ≥ 50000000) ∧
    verify_transaction_on_chain (Except.ok (some overpayTx)) none fixRecipient
        50000000 fixMint fixReference = true :=
  ⟨by decide, by decide, by decide, by decide, by decide, by decide,
   (verify_amount_geq_first_match overpayTx fixRecipient fixMint fixReference 50000000 75000000
      fixRecipientPk fixMintPk fixReferencePk (by decide) (by decide) (by decide) rfl
      (by decide) (by decide) [] [] ⟨some TOKEN_PROGRAM_ID, [], some ⟨"transfer", some "75000000", none, ""⟩⟩
      ⟨"transfer", some "75000000", none, ""⟩ rfl (by simp) rfl rfl (by left; rfl)
      (by decide)).1 (by decide)⟩

end CryptoTax
